import Mathlib

/-!
Shallow embedding of the image acquisition and caching subsystem
(`AnimeImageHandler` in `image_handler.py`) of the top_anime_dashboard
repository, together with theorems settling the frozen claims.

Modelling choices:
* The filesystem is a map from paths to file sizes (`FS`); a path maps to
  `some n` when a file of size `n` bytes exists there and to `none` otherwise.
* Network traffic is modelled by oracles: the Jikan metadata API is a list of
  successive HTTP responses (`JikanResp`), one consumed per GET, and the image
  download endpoint is a list of per-attempt outcomes (`DlAttempt`).
* Each operation returns, besides its value, the number of HTTP requests it
  performed, so that "performs no network I/O" is expressible.
* Characters: Python's Unicode-aware `str.isalnum` / `\d` are modelled by the
  ASCII `Char.isAlphanum` / `Char.isDigit`; all concrete inputs in the claims
  are ASCII, where the two agree.
-/

/-- A filesystem: each path is either absent (`none`) or a file with a byte
size (`some size`). -/
abbrev FS := String → Option Nat

/-- Write a file of the given size at a path (`open(filename, 'wb')` plus the
streamed chunks). -/
def FS.write (fs : FS) (p : String) (sz : Nat) : FS :=
  fun q => if q = p then some sz else fs q

/-- Delete the file at a path (`os.remove`); deleting an absent path is a
no-op in this model. -/
def FS.remove (fs : FS) (p : String) : FS :=
  fun q => if q = p then none else fs q

/-! ### Identifier Extractor: `_extract_mal_id` -/

/-- The literal part of the pattern `/anime/(\d+)`. -/
def animePat : List Char := ['/', 'a', 'n', 'i', 'm', 'e', '/']

/-- Does the regex `/anime/(\d+)` match at the head of `cs`: the literal
`/anime/` followed by at least one digit. -/
def matchAt (cs : List Char) : Bool :=
  animePat.isPrefixOf cs &&
    (match cs.drop 7 with
     | c :: _ => c.isDigit
     | [] => false)

/-- `int` applied to a run of decimal digits. -/
def digitsToNat (ds : List Char) : Nat :=
  ds.foldl (fun acc c => acc * 10 + (c.toNat - 48)) 0

/-- `re.search` for `/anime/(\d+)`: scan left to right for the first position
where the pattern matches, and convert the (maximal) digit run of group 1. -/
def searchAnimeId : List Char → Option Nat
  | [] => none
  | c :: rest =>
    if matchAt (c :: rest) then
      some (digitsToNat (((c :: rest).drop 7).takeWhile Char.isDigit))
    else
      searchAnimeId rest

/-- `_extract_mal_id`: extract the MyAnimeList ID from a URL, `none` when the
pattern is absent. The `try/except` around the body never fires for string
input (`re.search` and `int` over a digit run do not raise), so the model is
the total function below. -/
def extract_mal_id (mal_url : String) : Option Nat :=
  searchAnimeId mal_url.data

/-! ### Filename Deriver: `_sanitize_filename` -/

/-- The character filter of `_sanitize_filename`:
`c.isalnum() or c in (' ', '-', '_')`. -/
def keepChar (c : Char) : Bool :=
  c.isAlphanum || c = ' ' || c = '-' || c = '_'

/-- Python `str.rstrip()`: drop trailing whitespace. -/
def rstrip (cs : List Char) : List Char :=
  (cs.reverse.dropWhile Char.isWhitespace).reverse

/-- The sanitized title: filter to alphanumerics plus space/hyphen/underscore,
strip trailing whitespace, replace spaces by underscores, keep the first 40
characters. -/
def safeTitle (anime_title : List Char) : List Char :=
  ((rstrip (anime_title.filter keepChar)).map
    (fun c => if c = ' ' then '_' else c)).take 40

/-- `_sanitize_filename`: compose `<images_dir>/<safeTitle>_<mal_id>.jpg`. -/
def sanitize_filename (images_dir : String) (anime_title : String)
    (mal_id : Nat) : String :=
  images_dir ++ "/" ++ String.mk (safeTitle anime_title.data) ++ "_" ++
    toString mal_id ++ ".jpg"

/-! ### Remote Resolver: `_get_image_from_jikan` -/

/-- The `webp` object of the Jikan response: its `large_image_url` key, when
present. -/
structure WebpObj where
  large_image_url : Option String
deriving DecidableEq, Repr

/-- The `jpg` object of the Jikan response: its `large_image_url` and
`image_url` keys, when present. -/
structure JpgObj where
  large_image_url : Option String
  image_url : Option String
deriving DecidableEq, Repr

/-- `data.images` of the Jikan response body: optional `webp` and `jpg`
objects. -/
structure ImagesObj where
  webp : Option WebpObj
  jpg : Option JpgObj
deriving DecidableEq, Repr

/-- One HTTP response of the metadata API, as the resolver distinguishes them:
a 200 whose JSON body has `data.images` (`ok`), a 200 lacking the
`data`/`images` keys (`okNoImages`), a 429 (`rateLimited`), any other status
(`otherStatus`), or a transport/parsing exception (`exn`). -/
inductive JikanResp where
  | ok (images : ImagesObj)
  | okNoImages
  | rateLimited
  | otherStatus
  | exn
deriving DecidableEq, Repr

/-- The `if/elif` preference chain over `data.images`:
`webp.large_image_url`, then `jpg.large_image_url`, then `jpg.image_url`. -/
def selectImage (images : ImagesObj) : Option String :=
  match images.webp.bind WebpObj.large_image_url with
  | some u => some u
  | none =>
    match images.jpg.bind JpgObj.large_image_url with
    | some u => some u
    | none => images.jpg.bind JpgObj.image_url

/-- `_get_image_from_jikan`: issue a GET (consuming the head of the response
stream); on 200 select an image URL, on 429 sleep and recurse on the rest of
the stream, otherwise return `none`. Returns the resolved URL and the number
of GETs performed; a GET against an exhausted stream is a transport
exception. -/
def get_image_from_jikan : List JikanResp → Option String × Nat
  | [] => (none, 1)
  | JikanResp.ok images :: _ => (selectImage images, 1)
  | JikanResp.okNoImages :: _ => (none, 1)
  | JikanResp.rateLimited :: rest =>
    let r := get_image_from_jikan rest
    (r.1, r.2 + 1)
  | JikanResp.otherStatus :: _ => (none, 1)
  | JikanResp.exn :: _ => (none, 1)

/-! ### Download with retry: `_download_image` -/

/-- One download attempt's outcome at the image URL: non-200 status
(`httpFail`), 200 without `image` in the content type (`notImage`), 200 with
an image content type whose streamed body has the given size (`body`), or a
transport exception (`exn`). -/
inductive DlAttempt where
  | httpFail
  | notImage
  | body (size : Nat)
  | exn
deriving DecidableEq, Repr

/-- The retry loop of `_download_image`: at most `fuel` attempts, one GET per
attempt. A `body` attempt writes the file and succeeds when the written file
is non-empty, deleting it otherwise; an exception deletes any file at the
path; other failures leave the filesystem untouched. A GET against an
exhausted attempt stream counts as a transport exception. Returns success,
the resulting filesystem, and the number of attempts (GETs) performed. -/
def downloadLoop (filename : String) :
    Nat → List DlAttempt → FS → Bool × FS × Nat
  | 0, _, fs => (false, fs, 0)
  | fuel + 1, [], fs =>
    let r := downloadLoop filename fuel [] (fs.remove filename)
    (r.1, r.2.1, r.2.2 + 1)
  | fuel + 1, DlAttempt.httpFail :: rest, fs =>
    let r := downloadLoop filename fuel rest fs
    (r.1, r.2.1, r.2.2 + 1)
  | fuel + 1, DlAttempt.notImage :: rest, fs =>
    let r := downloadLoop filename fuel rest fs
    (r.1, r.2.1, r.2.2 + 1)
  | fuel + 1, DlAttempt.body sz :: rest, fs =>
    let fs1 := fs.write filename sz
    if 0 < sz then (true, fs1, 1)
    else
      let r := downloadLoop filename fuel rest (fs1.remove filename)
      (r.1, r.2.1, r.2.2 + 1)
  | fuel + 1, DlAttempt.exn :: rest, fs =>
    let r := downloadLoop filename fuel rest (fs.remove filename)
    (r.1, r.2.1, r.2.2 + 1)

/-- `_download_image`: `max_retries = 3`. -/
def download_image (atts : List DlAttempt) (filename : String) (fs : FS) :
    Bool × FS × Nat :=
  downloadLoop filename 3 atts fs

/-! ### Fetch-and-Cache Engine: `get_anime_image_path`, `display_image` -/

/-- Result of one engine invocation: the returned path (`none` on failure),
the filesystem afterwards, and the number of HTTP requests performed. -/
structure FetchResult where
  path : Option String
  fs : FS
  net : Nat

/-- The tail of `get_anime_image_path` after the cache check: resolve an image
URL through the Jikan API and, when one is found, download it to `filename`. -/
def resolveAndDownload (filename : String) (jr : List JikanResp)
    (dl : List DlAttempt) (fs : FS) : FetchResult :=
  let r := get_image_from_jikan jr
  match r.1 with
  | none => ⟨none, fs, r.2⟩
  | some _ =>
    let d := download_image dl filename fs
    if d.1 then ⟨some filename, d.2.1, r.2 + d.2.2⟩
    else ⟨none, d.2.1, r.2 + d.2.2⟩

/-- `get_anime_image_path` from the filename derivation on: return the cached
file when present and non-empty, delete it when present and empty, then fetch
remotely. -/
def fetch_for_id (images_dir : String) (anime_title : String) (mal_id : Nat)
    (jr : List JikanResp) (dl : List DlAttempt) (fs : FS) : FetchResult :=
  let filename := sanitize_filename images_dir anime_title mal_id
  match fs filename with
  | some (_ + 1) => ⟨some filename, fs, 0⟩
  | some 0 => resolveAndDownload filename jr dl (fs.remove filename)
  | none => resolveAndDownload filename jr dl fs

/-- `get_anime_image_path`: extract the MAL ID and dispatch. The guard is
Python's `if not mal_id`, which treats both `None` and the integer `0` as
falsy, so an extracted ID of `0` fails like an absent one. -/
def get_anime_image_path (images_dir : String) (mal_url : String)
    (anime_title : String) (jr : List JikanResp) (dl : List DlAttempt)
    (fs : FS) : FetchResult :=
  match extract_mal_id mal_url with
  | none => ⟨none, fs, 0⟩
  | some 0 => ⟨none, fs, 0⟩
  | some (mal_id + 1) =>
    fetch_for_id images_dir anime_title (mal_id + 1) jr dl fs

/-- `display_image`: fetch a local path and render it; `render_ok` is the
oracle for whether `st.image` succeeds or raises. Returns (success,
filesystem, placeholder shown). On a render exception the cached file is
deleted before the placeholder is shown. The returned path is never the empty
string, so Python's `if image_path and os.path.exists(image_path)` is modelled
by the option match plus the existence check. -/
def display_image (images_dir : String) (mal_url : String)
    (anime_title : String) (jr : List JikanResp) (dl : List DlAttempt)
    (fs : FS) (render_ok : Bool) : Bool × FS × Bool :=
  let r := get_anime_image_path images_dir mal_url anime_title jr dl fs
  match r.path with
  | some p =>
    match r.fs p with
    | some _ =>
      if render_ok then (true, r.fs, false)
      else (false, r.fs.remove p, true)
    | none => (false, r.fs, true)
  | none => (false, r.fs, true)

/-! ### Spec-side definition for the refinement claim C4 -/

/-- The Filename Deriver as the spec words it: "filter `title` to the
alphanumeric characters plus {space, hyphen, underscore}, trim trailing
whitespace, replace spaces with underscores, truncate to the first 40
characters of the filtered string, then compose
`<cacheDir>/<truncatedTitle>_<id>.jpg`". -/
def deriveFilename_spec (cacheDir : String) (title : String) (id : Nat) :
    String :=
  let filtered := title.data.filter
    (fun c => c.isAlphanum || c = ' ' || c = '-' || c = '_')
  let trimmed := rstrip filtered
  let replaced := trimmed.map (fun c => if c = ' ' then '_' else c)
  let truncated := replaced.take 40
  cacheDir ++ "/" ++ String.mk truncated ++ "_" ++ toString id ++ ".jpg"

/-! ### Helper lemmas -/

theorem dropWhile_append_of_forall {p : Char → Bool} :
    ∀ (a b : List Char), (∀ c ∈ a, p c = true) →
      (a ++ b).dropWhile p = b.dropWhile p
  | [], _, _ => rfl
  | c :: a, b, h => by
    have hc : p c = true := h c (List.mem_cons_self c a)
    simp only [List.cons_append, List.dropWhile_cons, hc, if_true]
    exact dropWhile_append_of_forall a b (fun d hd => h d (List.mem_cons_of_mem c hd))

theorem rstrip_append_whitespace (t ws : List Char)
    (h : ∀ c ∈ ws, c.isWhitespace = true) : rstrip (t ++ ws) = rstrip t := by
  unfold rstrip
  rw [List.reverse_append,
    dropWhile_append_of_forall ws.reverse t.reverse
      (fun c hc => h c (List.mem_reverse.mp hc))]

theorem safeTitle_filter_congr (t1 t2 : List Char)
    (h : t1.filter keepChar = t2.filter keepChar) :
    safeTitle t1 = safeTitle t2 := by
  unfold safeTitle
  rw [h]

theorem searchAnimeId_eq_none : ∀ cs : List Char,
    (∀ i, matchAt (cs.drop i) = false) → searchAnimeId cs = none
  | [], _ => rfl
  | c :: rest, h => by
    have h0 : matchAt (c :: rest) = false := h 0
    unfold searchAnimeId
    rw [h0]
    simp only [Bool.false_eq_true, if_false]
    exact searchAnimeId_eq_none rest (fun i => by
      have hi := h (i + 1)
      rwa [List.drop_succ_cons] at hi)

theorem searchAnimeId_first : ∀ (cs : List Char) (i : Nat),
    matchAt (cs.drop i) = true →
    (∀ j, j < i → matchAt (cs.drop j) = false) →
    searchAnimeId cs
      = some (digitsToNat ((cs.drop (i + 7)).takeWhile Char.isDigit))
  | [], i, hm, _ => by
    rw [List.drop_nil] at hm
    exact absurd hm (by decide)
  | c :: rest, 0, hm, _ => by
    have hm0 : matchAt (c :: rest) = true := hm
    unfold searchAnimeId
    rw [hm0]
    rfl
  | c :: rest, i + 1, hm, hb => by
    have h0 : matchAt (c :: rest) = false := hb 0 (Nat.succ_pos i)
    have hm' : matchAt (rest.drop i) = true := by
      rwa [List.drop_succ_cons] at hm
    have hb' : ∀ j, j < i → matchAt (rest.drop j) = false := fun j hj => by
      have hbj := hb (j + 1) (Nat.succ_lt_succ hj)
      rwa [List.drop_succ_cons] at hbj
    unfold searchAnimeId
    rw [h0]
    simp only [Bool.false_eq_true, if_false]
    show searchAnimeId rest
      = some (digitsToNat ((rest.drop (i + 7)).takeWhile Char.isDigit))
    exact searchAnimeId_first rest i hm' hb'

theorem jikan_net_pos (jr : List JikanResp) :
    1 ≤ (get_image_from_jikan jr).2 := by
  cases jr with
  | nil => exact Nat.le_refl 1
  | cons h t =>
    cases h <;> simp [get_image_from_jikan]

theorem downloadLoop_success_file (fn : String) :
    ∀ (fuel : Nat) (atts : List DlAttempt) (fs : FS),
      (downloadLoop fn fuel atts fs).1 = true →
      ∃ sz, (downloadLoop fn fuel atts fs).2.1 fn = some sz ∧ 0 < sz := by
  intro fuel
  induction fuel with
  | zero =>
    intro atts fs h
    simp [downloadLoop] at h
  | succ m ih =>
    intro atts fs h
    match atts with
    | [] =>
      simp only [downloadLoop] at h ⊢
      exact ih [] _ h
    | DlAttempt.httpFail :: rest =>
      simp only [downloadLoop] at h ⊢
      exact ih rest fs h
    | DlAttempt.notImage :: rest =>
      simp only [downloadLoop] at h ⊢
      exact ih rest fs h
    | DlAttempt.exn :: rest =>
      simp only [downloadLoop] at h ⊢
      exact ih rest _ h
    | DlAttempt.body sz :: rest =>
      by_cases hsz : 0 < sz
      · refine ⟨sz, ?_, hsz⟩
        simp [downloadLoop, hsz, FS.write]
      · simp only [downloadLoop, if_neg hsz] at h ⊢
        exact ih rest _ h

theorem resolveAndDownload_success_shape (fn : String) (jr : List JikanResp)
    (dl : List DlAttempt) (fs : FS) (p : String)
    (h : (resolveAndDownload fn jr dl fs).path = some p) :
    p = fn ∧ ∃ sz, (resolveAndDownload fn jr dl fs).fs fn = some sz ∧ 0 < sz := by
  simp only [resolveAndDownload] at h ⊢
  cases hj : (get_image_from_jikan jr).1 with
  | none =>
    rw [hj] at h
    simp at h
  | some u =>
    rw [hj] at h
    by_cases hd : (download_image dl fn fs).1 = true
    · simp only [hd, if_true] at h ⊢
      obtain rfl : fn = p := by simpa using h
      obtain ⟨sz, hsz, hpos⟩ := downloadLoop_success_file fn 3 dl fs hd
      exact ⟨rfl, sz, hsz, hpos⟩
    · simp only [hd, if_false] at h
      simp at h

theorem resolveAndDownload_net_pos (fn : String) (jr : List JikanResp)
    (dl : List DlAttempt) (fs : FS) :
    1 ≤ (resolveAndDownload fn jr dl fs).net := by
  simp only [resolveAndDownload]
  cases hj : (get_image_from_jikan jr).1 with
  | none => exact jikan_net_pos jr
  | some u =>
    by_cases hd : (download_image dl fn fs).1 = true
    · simp only [hd, if_true]
      exact le_trans (jikan_net_pos jr) (Nat.le_add_right _ _)
    · simp only [hd, if_false]
      exact le_trans (jikan_net_pos jr) (Nat.le_add_right _ _)

theorem get_path_cache_hit (dir url title : String) (id sz : Nat)
    (jr : List JikanResp) (dl : List DlAttempt) (fs : FS)
    (hx : extract_mal_id url = some id) (hne : id ≠ 0)
    (hf : fs (sanitize_filename dir title id) = some sz) (hsz : 0 < sz) :
    get_anime_image_path dir url title jr dl fs
      = ⟨some (sanitize_filename dir title id), fs, 0⟩ := by
  obtain ⟨m, rfl⟩ := Nat.exists_eq_succ_of_ne_zero hne
  obtain ⟨k, rfl⟩ : ∃ k, sz = k + 1 := ⟨sz - 1, by omega⟩
  unfold get_anime_image_path
  rw [hx]
  show fetch_for_id dir title (m + 1) jr dl fs = _
  simp only [fetch_for_id]
  rw [hf]

theorem get_path_success_shape (dir url title : String) (jr : List JikanResp)
    (dl : List DlAttempt) (fs : FS) (p : String)
    (h : (get_anime_image_path dir url title jr dl fs).path = some p) :
    ∃ id sz, extract_mal_id url = some id ∧ id ≠ 0 ∧
      p = sanitize_filename dir title id ∧
      (get_anime_image_path dir url title jr dl fs).fs p = some sz ∧
      0 < sz := by
  cases hx : extract_mal_id url with
  | none =>
    have heq : get_anime_image_path dir url title jr dl fs
        = ⟨none, fs, 0⟩ := by
      unfold get_anime_image_path; rw [hx]
    rw [heq] at h
    simp at h
  | some id =>
    cases id with
    | zero =>
      have heq : get_anime_image_path dir url title jr dl fs
          = ⟨none, fs, 0⟩ := by
        unfold get_anime_image_path; rw [hx]
      rw [heq] at h
      simp at h
    | succ m =>
      have heq : get_anime_image_path dir url title jr dl fs
          = fetch_for_id dir title (m + 1) jr dl fs := by
        unfold get_anime_image_path; rw [hx]
      rw [heq] at h ⊢
      refine ⟨m + 1, ?_⟩
      cases hf : fs (sanitize_filename dir title (m + 1)) with
      | some sz =>
        cases sz with
        | succ k =>
          have heq2 : fetch_for_id dir title (m + 1) jr dl fs
              = ⟨some (sanitize_filename dir title (m + 1)), fs, 0⟩ := by
            simp only [fetch_for_id]; rw [hf]
          rw [heq2] at h ⊢
          obtain rfl : sanitize_filename dir title (m + 1) = p := by
            simpa using h
          exact ⟨k + 1, rfl, Nat.succ_ne_zero m, rfl, hf, Nat.succ_pos k⟩
        | zero =>
          have heq2 : fetch_for_id dir title (m + 1) jr dl fs
              = resolveAndDownload (sanitize_filename dir title (m + 1)) jr dl
                  (fs.remove (sanitize_filename dir title (m + 1))) := by
            simp only [fetch_for_id]; rw [hf]
          rw [heq2] at h ⊢
          obtain ⟨rfl, sz, hsz, hpos⟩ :=
            resolveAndDownload_success_shape _ jr dl _ p h
          exact ⟨sz, rfl, Nat.succ_ne_zero m, rfl, hsz, hpos⟩
      | none =>
        have heq2 : fetch_for_id dir title (m + 1) jr dl fs
            = resolveAndDownload (sanitize_filename dir title (m + 1)) jr dl
                fs := by
          simp only [fetch_for_id]; rw [hf]
        rw [heq2] at h ⊢
        obtain ⟨rfl, sz, hsz, hpos⟩ :=
          resolveAndDownload_success_shape _ jr dl _ p h
        exact ⟨sz, rfl, Nat.succ_ne_zero m, rfl, hsz, hpos⟩

/-- C8: for every URL in which `/anime/(\d+)` matches, `_extract_mal_id`
returns the integer value of the digit run at the first match position; for
every URL in which the pattern matches nowhere it returns `none` (and, being
a total function, it never raises). -/
theorem extract_mal_id_correct (s : String) :
    (∀ i, matchAt (s.data.drop i) = true →
       (∀ j, j < i → matchAt (s.data.drop j) = false) →
       extract_mal_id s
         = some (digitsToNat ((s.data.drop (i + 7)).takeWhile Char.isDigit))) ∧
    ((∀ i, i < s.data.length → matchAt (s.data.drop i) = false) →
       extract_mal_id s = none) := by
  constructor
  · intro i hm hb
    exact searchAnimeId_first s.data i hm hb
  · intro h
    apply searchAnimeId_eq_none
    intro i
    by_cases hi : i < s.data.length
    · exact h i hi
    · rw [List.drop_eq_nil_of_le (Nat.le_of_not_lt hi)]
      decide

/-- C7: on an HTTP 200 response, `_get_image_from_jikan` selects from
`data.images` in strict preference order `webp.large_image_url`, then
`jpg.large_image_url`, then `jpg.image_url`, returning the first present
field and `none` when none is present; the spec's scenario body with only
`jpg.image_url` resolves to `http://x/img.jpg`. -/
theorem jikan_ok_preference_order (images : ImagesObj)
    (rest : List JikanResp) :
    (∀ u, images.webp.bind WebpObj.large_image_url = some u →
       get_image_from_jikan (JikanResp.ok images :: rest) = (some u, 1)) ∧
    (∀ u, images.webp.bind WebpObj.large_image_url = none →
       images.jpg.bind JpgObj.large_image_url = some u →
       get_image_from_jikan (JikanResp.ok images :: rest) = (some u, 1)) ∧
    (images.webp.bind WebpObj.large_image_url = none →
       images.jpg.bind JpgObj.large_image_url = none →
       get_image_from_jikan (JikanResp.ok images :: rest)
         = (images.jpg.bind JpgObj.image_url, 1)) ∧
    get_image_from_jikan
        [JikanResp.ok ⟨none, some ⟨none, some "http://x/img.jpg"⟩⟩]
      = (some "http://x/img.jpg", 1) := by
  refine ⟨?_, ?_, ?_, rfl⟩
  · intro u hu
    simp [get_image_from_jikan, selectImage, hu]
  · intro u hw hj
    simp [get_image_from_jikan, selectImage, hw, hj]
  · intro hw hj
    simp [get_image_from_jikan, selectImage, hw, hj]

/-- C7 (witness): the preference order at concrete bodies — a full body
resolves to the webp large URL; with webp absent it resolves to the jpg
large URL. -/
theorem jikan_ok_preference_order_witness :
    get_image_from_jikan
        [JikanResp.ok ⟨some ⟨some "http://x/l.webp"⟩,
          some ⟨some "http://x/l.jpg", some "http://x/i.jpg"⟩⟩]
      = (some "http://x/l.webp", 1) ∧
    get_image_from_jikan
        [JikanResp.ok ⟨none, some ⟨some "http://x/l.jpg", some "http://x/i.jpg"⟩⟩]
      = (some "http://x/l.jpg", 1) :=
  ⟨(jikan_ok_preference_order _ _).1 "http://x/l.webp" rfl,
    (jikan_ok_preference_order _ _).2.1 "http://x/l.jpg" rfl rfl⟩

/-- C1 (code evaluation): after two successive 429 responses the resolver does
NOT return `none` — it issues a third GET and returns that response's result;
in general `n` successive 429s lead to `n + 1` GETs, so a persistent 429 is
retried without bound rather than exactly once. -/
theorem jikan_rate_limit_retry_unbounded :
    get_image_from_jikan
        [JikanResp.rateLimited, JikanResp.rateLimited,
          JikanResp.ok ⟨none, some ⟨none, some "http://x/img.jpg"⟩⟩]
      = (some "http://x/img.jpg", 3) ∧
    ∀ n : Nat,
      get_image_from_jikan
          (List.replicate n JikanResp.rateLimited
            ++ [JikanResp.ok ⟨none, some ⟨none, some "http://x/img.jpg"⟩⟩])
        = (some "http://x/img.jpg", n + 1) := by
  refine ⟨rfl, ?_⟩
  intro n
  induction n with
  | zero => rfl
  | succ m ih =>
    rw [List.replicate_succ, List.cons_append]
    simp [get_image_from_jikan, ih]

/-- C8 (witness): the spec's scenario URL extracts 16498 (the pattern first
matches at index 23), and a URL without the pattern extracts nothing. -/
theorem extract_mal_id_correct_witness :
    extract_mal_id "https://myanimelist.net/anime/16498/Shingeki_no_Kyojin"
        = some 16498 ∧
      extract_mal_id "https://example.com/manga/42" = none :=
  ⟨((extract_mal_id_correct _).1 23 (by decide) (by decide)).trans (by decide),
    (extract_mal_id_correct _).2 (by decide)⟩

/-- C4: `_sanitize_filename` returns `<cacheDir>/<t>_<id>.jpg` with `t` the
title filtered to alphanumerics/space/hyphen/underscore, trailing whitespace
trimmed, spaces replaced by underscores, truncated to 40 characters; in
particular `"Attack on Titan!"` with id 16498 yields
`anime_images/Attack_on_Titan_16498.jpg`. -/
theorem sanitize_filename_matches_spec :
    (∀ (dir title : String) (id : Nat),
       sanitize_filename dir title id = deriveFilename_spec dir title id) ∧
    sanitize_filename "anime_images" "Attack on Titan!" 16498
      = "anime_images/Attack_on_Titan_16498.jpg" :=
  ⟨fun _ _ _ => rfl, rfl⟩

/-- C3 (counterexample): the derived path is NOT invariant under leading
whitespace — a leading space survives sanitization as an underscore. -/
theorem sanitize_leading_whitespace_changes_path :
    sanitize_filename "anime_images" " A" 1
        ≠ sanitize_filename "anime_images" "A" 1 ∧
      sanitize_filename "anime_images" " A" 1 = "anime_images/_A_1.jpg" :=
  ⟨by decide, rfl⟩

/-- C3 (amended): `_sanitize_filename` is a pure function of its inputs, and
the derived path is invariant under inserting characters outside
{alphanumeric, space, hyphen, underscore} anywhere in the title and under
appending trailing whitespace; leading whitespace, however, is preserved (as
underscores) and changes the path. -/
theorem sanitize_filename_invariance :
    (∀ (dir : String) (pre junk suf : List Char) (id : Nat),
       (∀ c ∈ junk, keepChar c = false) →
       sanitize_filename dir (String.mk (pre ++ junk ++ suf)) id
         = sanitize_filename dir (String.mk (pre ++ suf)) id) ∧
    (∀ (dir : String) (t ws : List Char) (id : Nat),
       (∀ c ∈ ws, c.isWhitespace = true) →
       sanitize_filename dir (String.mk (t ++ ws)) id
         = sanitize_filename dir (String.mk t) id) := by
  constructor
  · intro dir pre junk suf id h
    unfold sanitize_filename
    have hj : junk.filter keepChar = [] :=
      List.filter_eq_nil_iff.mpr (fun c hc => by simp [h c hc])
    have hs : safeTitle (String.mk (pre ++ junk ++ suf)).data
        = safeTitle (String.mk (pre ++ suf)).data := by
      apply safeTitle_filter_congr
      show (pre ++ junk ++ suf).filter keepChar
        = (pre ++ suf).filter keepChar
      simp [List.filter_append, hj]
    rw [hs]
  · intro dir t ws id h
    unfold sanitize_filename
    have hs : safeTitle (String.mk (t ++ ws)).data
        = safeTitle (String.mk t).data := by
      show safeTitle (t ++ ws) = safeTitle t
      unfold safeTitle
      rw [List.filter_append,
        rstrip_append_whitespace (t.filter keepChar) (ws.filter keepChar)
          (fun c hc => h c (List.mem_filter.mp hc).1)]
    rw [hs]

/-- C3 (witness): the amended invariances at concrete inputs — inserting `!`
into the title and appending a trailing space both leave the path
unchanged. -/
theorem sanitize_filename_invariance_witness :
    sanitize_filename "anime_images" (String.mk (['A'] ++ ['!'] ++ ['B'])) 1
        = sanitize_filename "anime_images" (String.mk (['A'] ++ ['B'])) 1 ∧
      sanitize_filename "anime_images" (String.mk (['A', 'B'] ++ [' '])) 1
        = sanitize_filename "anime_images" (String.mk ['A', 'B']) 1 :=
  ⟨sanitize_filename_invariance.1 "anime_images" ['A'] ['!'] ['B'] 1
      (by decide),
    sanitize_filename_invariance.2 "anime_images" ['A', 'B'] [' '] 1
      (by decide)⟩

/-- C2 (counterexample): `_extract_mal_id` returns the identifier 0 for a URL
containing `/anime/0`, yet `get_anime_image_path` fails with "no identifier"
(returns `none`, touching neither the cache nor the network) even though a
valid non-empty cache file sits at the derived path — `if not mal_id` treats
the integer 0 as absent. -/
theorem get_path_fails_for_extracted_id_zero :
    extract_mal_id "https://myanimelist.net/anime/0/Zero" = some 0 ∧
      sanitize_filename "anime_images" "Zero" 0 = "anime_images/Zero_0.jpg" ∧
      (get_anime_image_path "anime_images"
          "https://myanimelist.net/anime/0/Zero" "Zero" [] []
          (fun p => if p = "anime_images/Zero_0.jpg" then some 100
            else none)).path = none ∧
      (get_anime_image_path "anime_images"
          "https://myanimelist.net/anime/0/Zero" "Zero" [] []
          (fun p => if p = "anime_images/Zero_0.jpg" then some 100
            else none)).net = 0 :=
  ⟨rfl, rfl, rfl, rfl⟩

/-- C2 (amended): for every sourceUrl from which the Identifier Extractor
returns a POSITIVE identifier, `get_anime_image_path` does not fail with "no
identifier": it proceeds to derive the cache filename and check the cache
(`fetch_for_id`). An extracted identifier of 0 is treated like an absent one
because `if not mal_id` relies on Python integer falsiness. -/
theorem get_path_proceeds_for_positive_id (dir url title : String) (id : Nat)
    (jr : List JikanResp) (dl : List DlAttempt) (fs : FS)
    (hx : extract_mal_id url = some id) (hne : id ≠ 0) :
    get_anime_image_path dir url title jr dl fs
      = fetch_for_id dir title id jr dl fs := by
  obtain ⟨m, rfl⟩ := Nat.exists_eq_succ_of_ne_zero hne
  unfold get_anime_image_path
  rw [hx]

/-- C2 (witness): the engine proceeds past identifier extraction for the
spec's scenario URL, whose extracted identifier 16498 is positive. -/
theorem get_path_proceeds_for_positive_id_witness :
    get_anime_image_path "anime_images"
        "https://myanimelist.net/anime/16498/Shingeki_no_Kyojin"
        "Attack on Titan!" [] [] (fun _ => none)
      = fetch_for_id "anime_images" "Attack on Titan!" 16498 [] []
          (fun _ => none) :=
  get_path_proceeds_for_positive_id "anime_images"
    "https://myanimelist.net/anime/16498/Shingeki_no_Kyojin"
    "Attack on Titan!" 16498 [] [] (fun _ => none) rfl (by decide)

/-- C5: when a file with size greater than zero exists at the derived path,
`get_anime_image_path` returns that path with the filesystem unchanged and
zero HTTP requests (no resolver call, no download); consequently, after any
successful call, a second call with the same (sourceUrl, title) — whatever
the network would answer — performs no network I/O and returns the same
path. -/
theorem cache_hit_idempotent :
    (∀ (dir url title : String) (id sz : Nat) (jr : List JikanResp)
       (dl : List DlAttempt) (fs : FS),
       extract_mal_id url = some id → id ≠ 0 →
       fs (sanitize_filename dir title id) = some sz → 0 < sz →
       get_anime_image_path dir url title jr dl fs
         = ⟨some (sanitize_filename dir title id), fs, 0⟩) ∧
    (∀ (dir url title p : String) (jr jr' : List JikanResp)
       (dl dl' : List DlAttempt) (fs : FS),
       (get_anime_image_path dir url title jr dl fs).path = some p →
       get_anime_image_path dir url title jr' dl'
           (get_anime_image_path dir url title jr dl fs).fs
         = ⟨some p, (get_anime_image_path dir url title jr dl fs).fs, 0⟩) := by
  constructor
  · exact fun dir url title id sz jr dl fs hx hne hf hsz =>
      get_path_cache_hit dir url title id sz jr dl fs hx hne hf hsz
  · intro dir url title p jr jr' dl dl' fs h
    obtain ⟨id, sz, hx, hne, rfl, hfs, hpos⟩ :=
      get_path_success_shape dir url title jr dl fs p h
    exact get_path_cache_hit dir url title id sz jr' dl' _ hx hne hfs hpos

/-- C5 (witness): a first call on an empty cache downloads the image and a
second call — given no network responses at all — returns the same path from
the cache with zero requests. -/
theorem cache_hit_idempotent_witness :
    (get_anime_image_path "anime_images"
        "https://myanimelist.net/anime/16498/Shingeki_no_Kyojin"
        "Attack on Titan!"
        [JikanResp.ok ⟨none, some ⟨none, some "http://x/img.jpg"⟩⟩]
        [DlAttempt.body 5] (fun _ => none)).path
      = some "anime_images/Attack_on_Titan_16498.jpg" ∧
    get_anime_image_path "anime_images"
        "https://myanimelist.net/anime/16498/Shingeki_no_Kyojin"
        "Attack on Titan!" [] []
        (get_anime_image_path "anime_images"
          "https://myanimelist.net/anime/16498/Shingeki_no_Kyojin"
          "Attack on Titan!"
          [JikanResp.ok ⟨none, some ⟨none, some "http://x/img.jpg"⟩⟩]
          [DlAttempt.body 5] (fun _ => none)).fs
      = ⟨some "anime_images/Attack_on_Titan_16498.jpg",
          (get_anime_image_path "anime_images"
            "https://myanimelist.net/anime/16498/Shingeki_no_Kyojin"
            "Attack on Titan!"
            [JikanResp.ok ⟨none, some ⟨none, some "http://x/img.jpg"⟩⟩]
            [DlAttempt.body 5] (fun _ => none)).fs, 0⟩ :=
  ⟨rfl,
    cache_hit_idempotent.2 "anime_images"
      "https://myanimelist.net/anime/16498/Shingeki_no_Kyojin"
      "Attack on Titan!" "anime_images/Attack_on_Titan_16498.jpg"
      [JikanResp.ok ⟨none, some ⟨none, some "http://x/img.jpg"⟩⟩] []
      [DlAttempt.body 5] [] (fun _ => none) rfl⟩

/-- C6: when every download attempt fails at the HTTP level (non-200 status),
`_download_image` makes exactly 3 attempts, returns `false` (no exception in
the model: the function is total), leaves the filesystem unchanged, and — the
destination being initially absent — no file remains at the destination path
afterward. -/
theorem download_http_failures_three_attempts (filename : String) (fs : FS)
    (rest : List DlAttempt) :
    download_image
        (DlAttempt.httpFail :: DlAttempt.httpFail :: DlAttempt.httpFail :: rest)
        filename fs
      = (false, fs, 3) ∧
    (fs filename = none →
      (download_image
          (DlAttempt.httpFail :: DlAttempt.httpFail :: DlAttempt.httpFail
            :: rest)
          filename fs).2.1 filename = none) := by
  exact ⟨rfl, fun h => h⟩

/-- C6 (witness): three HTTP failures on an empty filesystem — failure after
exactly 3 attempts, and the destination path stays absent. -/
theorem download_http_failures_three_attempts_witness :
    download_image
        [DlAttempt.httpFail, DlAttempt.httpFail, DlAttempt.httpFail]
        "anime_images/x_1.jpg" (fun _ => none)
      = (false, (fun _ => none : FS), 3) ∧
    (download_image
        [DlAttempt.httpFail, DlAttempt.httpFail, DlAttempt.httpFail]
        "anime_images/x_1.jpg" (fun _ => none)).2.1 "anime_images/x_1.jpg"
      = none :=
  ⟨(download_http_failures_three_attempts "anime_images/x_1.jpg"
      (fun _ => none) []).1,
    (download_http_failures_three_attempts "anime_images/x_1.jpg"
      (fun _ => none) []).2 rfl⟩

/-- C9: when a zero-byte file exists at the derived path,
`get_anime_image_path` deletes it (the path is absent in the filesystem it
hands on) and proceeds to resolve a remote URL and download afresh
(`resolveAndDownload`, which always issues at least one HTTP request), rather
than returning the path to the empty file. -/
theorem zero_byte_cache_heal (dir url title : String) (id : Nat)
    (jr : List JikanResp) (dl : List DlAttempt) (fs : FS)
    (hx : extract_mal_id url = some id) (hne : id ≠ 0)
    (hf : fs (sanitize_filename dir title id) = some 0) :
    get_anime_image_path dir url title jr dl fs
        = resolveAndDownload (sanitize_filename dir title id) jr dl
            (fs.remove (sanitize_filename dir title id)) ∧
      (fs.remove (sanitize_filename dir title id))
          (sanitize_filename dir title id) = none ∧
      1 ≤ (get_anime_image_path dir url title jr dl fs).net := by
  obtain ⟨m, rfl⟩ := Nat.exists_eq_succ_of_ne_zero hne
  have heq : get_anime_image_path dir url title jr dl fs
      = resolveAndDownload (sanitize_filename dir title (m + 1)) jr dl
          (fs.remove (sanitize_filename dir title (m + 1))) := by
    unfold get_anime_image_path
    rw [hx]
    show fetch_for_id dir title (m + 1) jr dl fs = _
    simp only [fetch_for_id]
    rw [hf]
  refine ⟨heq, ?_, ?_⟩
  · simp [FS.remove]
  · rw [heq]
    exact resolveAndDownload_net_pos _ jr dl _

/-- C9 (witness): a zero-byte cache entry for the scenario title is healed —
the engine deletes it and performs the remote fetch. -/
theorem zero_byte_cache_heal_witness :
    get_anime_image_path "anime_images"
        "https://myanimelist.net/anime/16498/Shingeki_no_Kyojin"
        "Attack on Titan!"
        [JikanResp.ok ⟨none, some ⟨none, some "http://x/img.jpg"⟩⟩]
        [DlAttempt.body 5]
        (fun p => if p = "anime_images/Attack_on_Titan_16498.jpg" then some 0
          else none)
      = resolveAndDownload
          (sanitize_filename "anime_images" "Attack on Titan!" 16498)
          [JikanResp.ok ⟨none, some ⟨none, some "http://x/img.jpg"⟩⟩]
          [DlAttempt.body 5]
          (FS.remove
            (fun p => if p = "anime_images/Attack_on_Titan_16498.jpg"
              then some 0 else none)
            (sanitize_filename "anime_images" "Attack on Titan!" 16498)) ∧
      FS.remove
          (fun p => if p = "anime_images/Attack_on_Titan_16498.jpg"
            then some 0 else none)
          (sanitize_filename "anime_images" "Attack on Titan!" 16498)
          (sanitize_filename "anime_images" "Attack on Titan!" 16498)
        = none ∧
      1 ≤ (get_anime_image_path "anime_images"
          "https://myanimelist.net/anime/16498/Shingeki_no_Kyojin"
          "Attack on Titan!"
          [JikanResp.ok ⟨none, some ⟨none, some "http://x/img.jpg"⟩⟩]
          [DlAttempt.body 5]
          (fun p => if p = "anime_images/Attack_on_Titan_16498.jpg"
            then some 0 else none)).net :=
  zero_byte_cache_heal "anime_images"
    "https://myanimelist.net/anime/16498/Shingeki_no_Kyojin"
    "Attack on Titan!" 16498
    [JikanResp.ok ⟨none, some ⟨none, some "http://x/img.jpg"⟩⟩]
    [DlAttempt.body 5]
    (fun p => if p = "anime_images/Attack_on_Titan_16498.jpg" then some 0
      else none)
    rfl (by decide) rfl

/-- C10: when `get_anime_image_path` yields a path whose file exists and the
render step raises, `display_image` deletes the cached file at that path,
shows the "Image not available" placeholder, and returns `false` — the file
that failed to render is no longer in the cache. -/
theorem display_render_failure_evicts (dir url title : String)
    (jr : List JikanResp) (dl : List DlAttempt) (fs : FS) (p : String)
    (sz : Nat)
    (hp : (get_anime_image_path dir url title jr dl fs).path = some p)
    (hf : (get_anime_image_path dir url title jr dl fs).fs p = some sz) :
    display_image dir url title jr dl fs false
        = (false,
            (get_anime_image_path dir url title jr dl fs).fs.remove p,
            true) ∧
      ((get_anime_image_path dir url title jr dl fs).fs.remove p) p
        = none := by
  constructor
  · simp [display_image, hp, hf]
  · simp [FS.remove]

/-- C10 (witness): with a cached image on disk and a failing renderer, the
handler deletes the file, shows the placeholder, and returns `false`. -/
theorem display_render_failure_evicts_witness :
    display_image "anime_images"
        "https://myanimelist.net/anime/16498/Shingeki_no_Kyojin"
        "Attack on Titan!" [] []
        (fun p => if p = "anime_images/Attack_on_Titan_16498.jpg" then some 7
          else none)
        false
      = (false,
          (get_anime_image_path "anime_images"
            "https://myanimelist.net/anime/16498/Shingeki_no_Kyojin"
            "Attack on Titan!" [] []
            (fun p => if p = "anime_images/Attack_on_Titan_16498.jpg"
              then some 7 else none)).fs.remove
            "anime_images/Attack_on_Titan_16498.jpg",
          true) ∧
      ((get_anime_image_path "anime_images"
          "https://myanimelist.net/anime/16498/Shingeki_no_Kyojin"
          "Attack on Titan!" [] []
          (fun p => if p = "anime_images/Attack_on_Titan_16498.jpg"
            then some 7 else none)).fs.remove
          "anime_images/Attack_on_Titan_16498.jpg")
        "anime_images/Attack_on_Titan_16498.jpg" = none :=
  display_render_failure_evicts "anime_images"
    "https://myanimelist.net/anime/16498/Shingeki_no_Kyojin"
    "Attack on Titan!" [] []
    (fun p => if p = "anime_images/Attack_on_Titan_16498.jpg" then some 7
      else none)
    "anime_images/Attack_on_Titan_16498.jpg" 7 rfl rfl
